import Mathlib

/-!
Verification of the asuntovahti repository's query/pagination engine and
entry-normalization pipeline (src/client.py, src/data.py, src/sheets.py)
against its natural-language specification, via a shallow embedding.

Conventions of the embedding:
* Python runtime errors are modelled by `Err` inside `Except`:
  `typeError` stands for `TypeError`/`AttributeError` raised on values of the
  wrong shape (e.g. iterating `None`, missing/unexpected keyword arguments),
  `keyError k` for `KeyError` on a dict lookup of key `k`, and `valueError`
  for `ValueError` raised by `datetime.strptime`.
* Python dicts are association lists with unique keys (CPython dicts preserve
  insertion order; assignment replaces in place, `pop` removes the key).
* Network interaction is abstracted by provider functions; the requests a
  computation performs are accounted for in a `List NetCall` log.
-/

/-- Python exceptions reachable in the embedded code paths. -/
inductive Err where
  | typeError
  | keyError (k : String)
  | valueError
deriving DecidableEq, Repr

/-- A network request issued by the client: a location lookup
(`GET /api/3.0/location?query=q`) or a listings page fetch (`GET url`). -/
inductive NetCall where
  | locLookup (q : String)
  | pageFetch (url : String)
deriving DecidableEq, Repr

/-- Removes the last character: Python `s[:-1]` (on the empty string, `''`). -/
def strDropLast (s : String) : String := ⟨s.data.dropLast⟩

/-- Python `s.replace(c, t)` for a single-character pattern `c` (the only
patterns used by the source: `'\n'` and `' '`). Each occurrence of `c` is
replaced by `t`. -/
def replaceChar (s : String) (c : Char) (t : String) : String :=
  ⟨(s.data.map (fun a => if a = c then t.data else [a])).flatten⟩

/-- Concatenation of a list of strings, the result of accumulating them with
`+=` into an initially empty accumulator. -/
def strConcat : List String → String
  | [] => ""
  | a :: l => a ++ strConcat l

/-- One match returned by the provider's location-search endpoint: the
`cardId` and `cardType` fields of the `card` object (src/client.py:102,110). -/
structure LocCard where
  cardId : Int
  cardType : Int
deriving DecidableEq, Repr

/-- The encoded fragment built for one location match (src/client.py:111-112):
`str([data['cardId'], data['cardType']]).replace(' ', '')[:-1]` followed by
`,"<name with spaces replaced by +>"]`. Since `str` of an int list contains a
space only after each comma, the result is written directly without spaces. -/
def card_info (c : LocCard) (loc : String) : String :=
  strDropLast ("[" ++ toString c.cardId ++ "," ++ toString c.cardType ++ "]")
    ++ ",\"" ++ replaceChar loc ' ' "+" ++ "\"]"

/-- The loop body of `OTClient.location` (src/client.py:104-113): for each
name, one lookup request is issued and every returned match contributes
`card_info ++ ","` to the accumulated string. Returns the accumulated body
and the log of network calls. -/
def locationRun (provider : String → List LocCard) : List String → String × List NetCall
  | [] => ("", [])
  | loc :: rest =>
    let chunk := strConcat ((provider loc).map (fun c => card_info c loc ++ ","))
    let r := locationRun provider rest
    (chunk ++ r.1, NetCall.locLookup loc :: r.2)

/-- `OTClient.location` (src/client.py:86-118): `results = '['`, the loop
bodies, then `results[:-1] + ']'`. -/
def location (provider : String → List LocCard) (locs : List String) : String :=
  strDropLast ("[" ++ (locationRun provider locs).1) ++ "]"

/-- The `house_types` category table of `OTClient._params_builder`
(src/client.py:162-167); an unknown name is a `KeyError`. -/
def houseTypeCodes (k : String) : Option (List Int) :=
  if k == "kerrostalo" then some [1, 256]
  else if k == "rivitalo" then some [2]
  else if k == "paritalo" then some [64]
  else if k == "omakotitalo" then some [4, 8, 32, 128]
  else Option.none

/-- `list(chain(*[house_types[k] for k in params['house_type']]))`
(src/client.py:168): left-to-right lookup, raising `KeyError` at the first
unknown name, then flattening. -/
def expandList : List String → Except Err (List Int)
  | [] => .ok []
  | k :: rest =>
    match houseTypeCodes k with
    | Option.none => .error (.keyError k)
    | some cs =>
      match expandList rest with
      | .error e => .error e
      | .ok l => .ok (cs ++ l)

/-- Line 168 applied to the `house_type` argument, which is `None` by default:
iterating `None` raises `TypeError`. -/
def expandHouseTypes : Option (List String) → Except Err (List Int)
  | Option.none => .error .typeError
  | some ks => expandList ks

/-- The logical query the caller supplies to `OTClient.query`
(src/client.py:34-36); every filter defaults to `None`. -/
structure QueryParams where
  locations : Option (List String)
  house_type : Option (List String)
  room_count : Option (List Int)
  price_min : Option Int
  price_max : Option Int
  size_min : Option Int
  size_max : Option Int
  limit : Int

/-- A value of the params dict at serialization time in `_params_builder`. -/
inductive ParamVal where
  | vnone
  | vstr (s : String)
  | vint (n : Int)
  | vlist (l : List Int)
deriving DecidableEq, Repr

/-- Python truthiness test `not value` used by the skip in
src/client.py:173-174. -/
def falsyParam : ParamVal → Bool
  | .vnone => true
  | .vstr s => s == ""
  | .vint n => n == 0
  | .vlist l => l.isEmpty

/-- Serialization of one key/value pair (src/client.py:177-181): a list value
repeats `key=v&`; anything else emits `key=value&`. -/
def emitParam (k : String) (v : ParamVal) : String :=
  match v with
  | .vnone => ""
  | .vstr s => k ++ "=" ++ s ++ "&"
  | .vint n => k ++ "=" ++ toString n ++ "&"
  | .vlist l => strConcat (l.map (fun x => k ++ "=" ++ toString x ++ "&"))

def optIntVal : Option Int → ParamVal
  | Option.none => .vnone
  | some n => .vint n

def optListVal : Option (List Int) → ParamVal
  | Option.none => .vnone
  | some l => .vlist l

/-- The params dict of `OTClient.query` at the point `_params_builder` loops
over it, in CPython insertion order: the keyword arguments of `query`
(src/client.py:60), the fixed parameters added by `params.update`
(src/client.py:61-66, `limit` keeps its original position), with
`house_type` replaced by its expanded code list and `locations` by the
encoded token (src/client.py:168-169), and the keys renamed through
`param_map` (src/client.py:154-161,175-176). -/
def paramPairs (p : QueryParams) (codes : List Int) (locTok : String) :
    List (String × ParamVal) :=
  [("locations", .vstr locTok),
   ("buildingType[]", .vlist codes),
   ("roomCount[]", optListVal p.room_count),
   ("price[min]", optIntVal p.price_min),
   ("price[max]", optIntVal p.price_max),
   ("size[min]", optIntVal p.size_min),
   ("size[max]", optIntVal p.size_max),
   ("limit", .vint p.limit),
   ("cardType", .vint 101),
   ("offset", .vint 0),
   ("sortBy", .vstr "published_sort_desc")]

/-- The serialization loop of `_params_builder` (src/client.py:171-182):
start from `'?'`, skip falsy values, append `key=value&` pairs, and drop the
trailing character. -/
def buildParamString (items : List (String × ParamVal)) : String :=
  strDropLast (items.foldl
    (fun acc kv => if falsyParam kv.2 then acc else acc ++ emitParam kv.1 kv.2) "?")

/-- `OTClient._params_builder` (src/client.py:152-182) on the `query` params
dict, threading the network-call log. Line 168 (house-type expansion) runs
first and raises before line 169 (the `location` call, which performs the
lookups); on success the remaining lines only build a string. -/
def params_builder (provider : String → List LocCard) (p : QueryParams) :
    Except Err String × List NetCall :=
  match expandHouseTypes p.house_type with
  | .error e => (.error e, [])
  | .ok codes =>
    match p.locations with
    | Option.none => (.error .typeError, [])
    | some locs =>
      let r := locationRun provider locs
      let locTok := strDropLast ("[" ++ r.1) ++ "]"
      (.ok (buildParamString (paramPairs p codes locTok)), r.2)

/-- The `_execute` closure of `OTClient.query` (src/client.py:68-71): the URL
is built from `_params_builder` first; only then is the page request issued. -/
def execute (provider : String → List LocCard) (p : QueryParams) :
    Except Err String × List NetCall :=
  match params_builder provider p with
  | (.error e, log) => (.error e, log)
  | (.ok s, log) =>
      let url := "https://asunnot.oikotie.fi/api/cards" ++ s
      (.ok url, log ++ [NetCall.pageFetch url])

/-- `OTClient.query()` with every optional filter left at its `None` default
and the default page size (src/client.py:34-36). -/
def noFilterParams : QueryParams :=
  { locations := Option.none, house_type := Option.none, room_count := Option.none
    price_min := Option.none, price_max := Option.none
    size_min := Option.none, size_max := Option.none, limit := 50 }

/-- One parsed JSON page of the listings endpoint: the ordered `cards` list
and the provider-reported total `found` (src/client.py:71,74,77). -/
structure Page (α : Type) where
  cards : List α
  found : Nat
deriving DecidableEq, Repr

/-- Python `range(start, stop, step)` for a positive `step`, realized with
structural fuel `stop - start` (enough iterations whenever `step ≥ 1`; the
source only calls it with `step = limit`, and `range` with step `0` is a
`ValueError` outside the modelled domain). -/
def pyRangeAux (step : Nat) : Nat → Nat → Nat → List Nat
  | 0, _, _ => []
  | fuel + 1, start, stop =>
    if start < stop then start :: pyRangeAux step fuel (start + step) stop else []

def pyRange (start stop step : Nat) : List Nat :=
  pyRangeAux step (stop - start) start stop

/-- The pagination of `OTClient.query` (src/client.py:73-84): fetch the page
at offset 0, read `found` from it once, and if `found > limit` fetch one page
per `i in range(limit, found, limit)` with `offset = i`. Each element pairs
the requested offset with the page the provider returned for it. -/
def queryRun {α : Type} (provider : Nat → Page α) (limit : Nat) :
    List (Nat × Page α) :=
  (0, provider 0) ::
    (if (provider 0).found > limit then
      (pyRange limit (provider 0).found limit).map (fun i => (i, provider i))
    else [])

/-- The offsets at which `query` issues page requests, in order. -/
def queryOffsets {α : Type} (provider : Nat → Page α) (limit : Nat) : List Nat :=
  (queryRun provider limit).map Prod.fst

/-- The full stream of raw entries `query` yields: each fetched page's
`cards`, page by page, in provider order (src/client.py:74-75,83-84). -/
def queryYield {α : Type} (provider : Nat → Page α) (limit : Nat) : List α :=
  (queryRun provider limit).flatMap (fun e => e.2.cards)

/-- Modelled from the spec (§4.4): the re-reading pagination the spec
describes, in which after fetching the page at offset `o` the engine re-reads
`found` from that page and continues at `o + limit` exactly when
`o + limit < found`. Fuel-based; used only to compare against the source's
`queryRun`. -/
def reReadOffsets {α : Type} (provider : Nat → Page α) (limit : Nat) :
    Nat → Nat → List Nat
  | 0, o => [o]
  | fuel + 1, o =>
    if o + limit < (provider o).found then
      o :: reReadOffsets provider limit fuel (o + limit)
    else [o]

/-- A naive datetime at second precision, the relevant content of a Python
`datetime.datetime` produced by `datetime.strptime(ts, '%Y-%m-%dT%H:%M:%SZ')`
(src/client.py:205). -/
structure DateTime where
  year : Nat
  month : Nat
  day : Nat
  hour : Nat
  minute : Nat
  second : Nat
deriving DecidableEq, Repr

/-- Numeric value of a decimal digit character (the `\d` of strptime's
regular expressions); `none` on a non-digit. -/
def dval (c : Char) : Option Nat :=
  if c = '0' then some 0 else if c = '1' then some 1 else if c = '2' then some 2
  else if c = '3' then some 3 else if c = '4' then some 4 else if c = '5' then some 5
  else if c = '6' then some 6 else if c = '7' then some 7 else if c = '8' then some 8
  else if c = '9' then some 9 else Option.none

def parse2 (a b : Char) : Option Nat :=
  match dval a, dval b with
  | some x, some y => some (x * 10 + y)
  | _, _ => Option.none

def parse4 (a b c d : Char) : Option Nat :=
  match dval a, dval b, dval c, dval d with
  | some x, some y, some z, some w => some (x * 1000 + y * 100 + z * 10 + w)
  | _, _, _, _ => Option.none

def isLeap (y : Nat) : Bool :=
  (y % 4 == 0 && y % 100 != 0) || y % 400 == 0

/-- Month lengths used by the `datetime` constructor's validity check. -/
def daysInMonth (y m : Nat) : Nat :=
  if m = 2 then (if isLeap y then 29 else 28)
  else if m = 4 ∨ m = 6 ∨ m = 9 ∨ m = 11 then 30 else 31

/-- The digit fields of a `YYYY-MM-DDTHH:MM:SSZ` string, or `none` when the
shape does not match. -/
def parseFields (l : List Char) : Option (Nat × Nat × Nat × Nat × Nat × Nat) :=
  match l with
  | [y1, y2, y3, y4, '-', a1, a2, '-', b1, b2, 'T',
     c1, c2, ':', d1, d2, ':', e1, e2, 'Z'] =>
    match parse4 y1 y2 y3 y4, parse2 a1 a2, parse2 b1 b2,
          parse2 c1 c2, parse2 d1 d2, parse2 e1 e2 with
    | some y, some mo, some d, some h, some mi, some se =>
        some (y, mo, d, h, mi, se)
    | _, _, _, _, _, _ => Option.none
  | _ => Option.none

/-- `datetime.strptime(s, '%Y-%m-%dT%H:%M:%SZ')` (src/client.py:205) in its
zero-padded reading (the format documented for the provider's timestamps):
exactly twenty characters with digits and literals in the fixed positions,
followed by the `datetime` constructor's range validation. A mismatch or an
out-of-range component is a `ValueError`. -/
def parseTS (s : String) : Except Err DateTime :=
  match parseFields s.data with
  | some (y, mo, d, h, mi, se) =>
    if 1 ≤ y ∧ y ≤ 9999 ∧ 1 ≤ mo ∧ mo ≤ 12 ∧ 1 ≤ d ∧ d ≤ daysInMonth y mo
        ∧ h ≤ 23 ∧ mi ≤ 59 ∧ se ≤ 59 then
      .ok ⟨y, mo, d, h, mi, se⟩
    else .error .valueError
  | Option.none => .error .valueError

/-- Two-digit zero-padded field of `strftime` (`%m`, `%d`, `%H`, `%M`, `%S`). -/
def pad2 (n : Nat) : List Char := [Nat.digitChar (n / 10), Nat.digitChar (n % 10)]

/-- Four-digit zero-padded `%Y` field of `strftime`. -/
def pad4 (n : Nat) : List Char :=
  [Nat.digitChar (n / 1000), Nat.digitChar (n / 100 % 10),
   Nat.digitChar (n / 10 % 10), Nat.digitChar (n % 10)]

/-- `v.strftime('%Y-%m-%dT%H:%M:%SZ')` (src/data.py:34). -/
def formatTS (t : DateTime) : String :=
  ⟨pad4 t.year ++ '-' :: pad2 t.month ++ '-' :: pad2 t.day ++ 'T' :: pad2 t.hour
    ++ ':' :: pad2 t.minute ++ ':' :: pad2 t.second ++ ['Z']⟩

/-- The components accepted by `strptime`'s regular expressions together with
the `datetime` constructor: exactly the instants `parseTS` can produce. -/
def validDT (t : DateTime) : Prop :=
  1 ≤ t.year ∧ t.year ≤ 9999 ∧ 1 ≤ t.month ∧ t.month ≤ 12 ∧ 1 ≤ t.day
    ∧ t.day ≤ daysInMonth t.year t.month ∧ t.hour ≤ 23 ∧ t.minute ≤ 59
    ∧ t.second ≤ 59

/-- A Python value as it occurs in a raw provider entry or in a `HouseEntry`
attribute: `None`, a string, a number (JSON numbers as rationals), a nested
JSON object, or a `datetime` produced by `_convert_ts`. -/
inductive PyVal where
  | none
  | str (s : String)
  | num (q : ℚ)
  | obj (l : List (String × PyVal))
  | dt (t : DateTime)

/-- A Python dict with `PyVal` values: an insertion-ordered association list
with unique keys. -/
abbrev Dict := List (String × PyVal)

/-- Python truthiness `if v` / `if not v` on the values reaching such tests
in the source (`_convert_ts`'s argument). -/
def pyFalsy : PyVal → Bool
  | .none => true
  | .str s => s == ""
  | .num q => q == 0
  | .obj l => l.isEmpty
  | .dt _ => false

/-- Dict lookup `d[k]` / `d.get(k)`: the value at the unique occurrence of
`k`, if any. -/
def dget : Dict → String → Option PyVal
  | [], _ => Option.none
  | a :: t, k => if a.1 == k then some a.2 else dget t k

/-- `d.get(k, default)`. -/
def dgetD (d : Dict) (k : String) (v : PyVal) : PyVal := (dget d k).getD v

/-- Dict assignment `d[k] = v`: replaces the value in place when the key
exists, appends the pair otherwise (CPython dict semantics on unique-keyed
dicts). -/
def dset : Dict → String → PyVal → Dict
  | [], k, v => [(k, v)]
  | a :: t, k, v => if a.1 == k then (k, v) :: t else a :: dset t k v

/-- The remaining dict after `d.pop(k, default)`: `k`'s entry removed. -/
def dpopRest : Dict → String → Dict
  | [], _ => []
  | a :: t, k => if a.1 == k then t else a :: dpopRest t k

/-- `d.update(other)`: assign every pair of `other` into `d`, in order. -/
def dupdate (d other : Dict) : Dict :=
  other.foldl (fun acc kv => dset acc kv.1 kv.2) d

/-- The keys of a dict, in order. -/
def dkeys (d : Dict) : List String := d.map Prod.fst

/-- The attribute names of the `HouseEntry` dataclass
(src/data.py:6-27), in declaration order. -/
def houseEntryFields : List String :=
  ["id", "url", "description", "rooms", "room_configuration", "price",
   "published", "size", "address", "district", "city", "country", "year",
   "building_type", "longitude", "latitude", "brand_name", "price_changed",
   "visits", "visits_weekly"]

/-- `{k: v for k, v in entry.items() if k in HouseEntry.__dataclass_fields__}`
(src/client.py:186). -/
def dictFilter (entry : Dict) : Dict :=
  entry.filter (fun kv => houseEntryFields.contains kv.1)

/-- Lines 186-187 of src/client.py: the filtered top-level copy with all of
`entry.get('buildingData', {})` assigned over it (no filtering of the
building-data sub-fields). -/
def merged_data (entry : Dict) (bd : Dict) : Dict :=
  dupdate (dictFilter entry) bd

/-- `OTClient._convert_ts` (src/client.py:203-205):
`datetime.strptime(ts, '%Y-%m-%dT%H:%M:%SZ') if ts else None`. A falsy value
(absent `None` or the empty string) becomes `None`; a non-empty string is
parsed (`ValueError` on a malformed one); any other truthy value would make
`strptime` raise `TypeError`. -/
def convert_ts (v : PyVal) : Except Err PyVal :=
  if pyFalsy v then .ok PyVal.none
  else match v with
    | .str s =>
      match parseTS s with
      | .ok t => .ok (.dt t)
      | .error e => .error e
    | _ => .error .typeError

/-- Lines 198-199 of src/client.py: convert the two timestamp fields (either
may raise a `ValueError`) and assign them into the dict. -/
def entry_data5 (entry data5 : Dict) : Except Err Dict :=
  match convert_ts (dgetD entry "priceChanged" PyVal.none) with
  | .ok pc =>
    match convert_ts (dgetD entry "published" PyVal.none) with
    | .ok pub => .ok (dset (dset data5 "price_changed" pc) "published" pub)
    | .error e => .error e
  | .error e => .error e

/-- Lines 194-196 of src/client.py: read the nested coordinates object
(defaulting to `{}`) and assign its `longitude`/`latitude` (defaulting to
`None`). -/
def entry_data4 (entry data4 : Dict) : Except Err Dict :=
  match dgetD entry "coordinates" (.obj []) with
  | .obj cobj =>
    entry_data5 entry (dset (dset data4 "longitude"
      (dgetD cobj "longitude" PyVal.none)) "latitude"
      (dgetD cobj "latitude" PyVal.none))
  | _ => .error .typeError

/-- Lines 190-191 of src/client.py: pop `buildingType` into `building_type`
(defaulting to `None`) and read `roomConfiguration` (defaulting to `None`). -/
def deriveData3 (entry data1 : Dict) : Dict :=
  dset (dset (dpopRest data1 "buildingType") "building_type"
    ((dget data1 "buildingType").getD PyVal.none)) "room_configuration"
    (dgetD entry "roomConfiguration" PyVal.none)

/-- Line 192 of src/client.py: `entry.get('brand', {'name': None})['name']` —
a non-dict `brand` value or a `brand` dict without a `name` key raises. -/
def entry_data3 (entry data1 : Dict) : Except Err Dict :=
  match dgetD entry "brand" (.obj [("name", PyVal.none)]) with
  | .obj bobj =>
    match dget bobj "name" with
    | some bn => entry_data4 entry (dset (deriveData3 entry data1) "brand_name" bn)
    | Option.none => .error (.keyError "name")
  | _ => .error .typeError

/-- Line 189 of src/client.py: `data.pop('description', '').replace('\n', '')`
— a non-string popped value raises when `.replace` is accessed. -/
def entry_data2 (entry data : Dict) : Except Err Dict :=
  match (dget data "description").getD (.str "") with
  | .str s =>
    entry_data3 entry (dset (dpopRest data "description") "description"
      (.str (replaceChar s '\n' "")))
  | _ => .error .typeError

/-- The body of `OTClient._entry_builder` (src/client.py:184-199) up to but
not including the `HouseEntry(**data)` call: builds the `data` dict through
the stages above, in the source's statement order, each arm that leaves the
happy path standing for the exception the corresponding Python line raises. -/
def entry_data (entry : Dict) : Except Err Dict :=
  match dgetD entry "buildingData" (.obj []) with
  | .obj bd => entry_data2 entry (merged_data entry bd)
  | _ => .error .typeError

/-- The `HouseEntry` dataclass (src/data.py:6-27). Python dataclass
annotations are not enforced at runtime, so every attribute holds a `PyVal`. -/
structure HouseEntry where
  id : PyVal
  url : PyVal
  description : PyVal
  rooms : PyVal
  room_configuration : PyVal
  price : PyVal
  published : PyVal
  size : PyVal
  address : PyVal
  district : PyVal
  city : PyVal
  country : PyVal
  year : PyVal
  building_type : PyVal
  longitude : PyVal
  latitude : PyVal
  brand_name : PyVal
  price_changed : PyVal
  visits : PyVal
  visits_weekly : PyVal

/-- `HouseEntry(**data)` (src/client.py:201): since the dataclass declares no
defaults, the call succeeds exactly when the keyword set equals the attribute
set; a missing or unexpected keyword raises `TypeError`. -/
def mkHouseEntry (d : Dict) : Except Err HouseEntry :=
  if houseEntryFields.all (fun f => (dkeys d).contains f)
      && (dkeys d).all (fun k => houseEntryFields.contains k) then
    .ok { id := dgetD d "id" PyVal.none, url := dgetD d "url" PyVal.none
          description := dgetD d "description" PyVal.none
          rooms := dgetD d "rooms" PyVal.none
          room_configuration := dgetD d "room_configuration" PyVal.none
          price := dgetD d "price" PyVal.none
          published := dgetD d "published" PyVal.none
          size := dgetD d "size" PyVal.none
          address := dgetD d "address" PyVal.none
          district := dgetD d "district" PyVal.none
          city := dgetD d "city" PyVal.none
          country := dgetD d "country" PyVal.none
          year := dgetD d "year" PyVal.none
          building_type := dgetD d "building_type" PyVal.none
          longitude := dgetD d "longitude" PyVal.none
          latitude := dgetD d "latitude" PyVal.none
          brand_name := dgetD d "brand_name" PyVal.none
          price_changed := dgetD d "price_changed" PyVal.none
          visits := dgetD d "visits" PyVal.none
          visits_weekly := dgetD d "visits_weekly" PyVal.none }
  else .error .typeError

/-- `OTClient._entry_builder` (src/client.py:184-201): build the `data` dict,
then construct the dataclass record. -/
def entry_builder (entry : Dict) : Except Err HouseEntry :=
  match entry_data entry with
  | .ok d => mkHouseEntry d
  | .error e => .error e

/-- The `asdict` serialization step applied to each attribute value
(src/data.py:29-35): a `datetime` is rendered through the fixed format,
anything else is kept as is. -/
def pyValSerialize (v : PyVal) : PyVal :=
  match v with
  | .dt t => .str (formatTS t)
  | x => x

/-- An entry as `SheetWrapper.insert` consumes it: its deduplication id
(`entry.id`) and the row `list(entry.asdict().values())` it would add
(src/sheets.py:44-47). Generic in the id and row types. -/
structure SEntry (ι ρ : Type) where
  id : ι
  row : ρ

/-- The state `SheetWrapper` maintains (src/sheets.py:23-32): the sheet's
rows (the header row included, 0-indexed here, 1-indexed in gspread) and the
in-memory id set. -/
structure WState (ι ρ : Type) where
  rows : List ρ
  ids : Finset ι

/-- `SheetWrapper.__init__` (src/sheets.py:23-32): read the records (the rows
after the header); if there are none, insert the header row of field names at
row 1, else collect each record's `id` into the set. `recId` abstracts
reading the `id` column of a record row; `header` is `HouseEntry.fields()`. -/
def constructW {ι ρ : Type} [DecidableEq ι] (recId : ρ → ι) (header : ρ)
    (sheet : List ρ) : WState ι ρ :=
  let records := sheet.drop 1
  if records.isEmpty then ⟨header :: sheet, ∅⟩
  else ⟨sheet, (records.map recId).toFinset⟩

/-- `SheetWrapper.insert` (src/sheets.py:34-50): a known id leaves everything
unchanged; a fresh id is added to the set and the row is inserted at gspread
index `len(self.ids) + 1` (1-based, after the id was added), i.e. 0-based
position `|ids| + 1`. -/
def sheetInsert {ι ρ : Type} [DecidableEq ι] (s : WState ι ρ) (e : SEntry ι ρ) :
    WState ι ρ :=
  if e.id ∈ s.ids then s
  else ⟨s.rows.insertIdx (s.ids.card + 1) e.row, insert e.id s.ids⟩

/-- A sequence of `insert` calls, in order. -/
def runInserts {ι ρ : Type} [DecidableEq ι] (s : WState ι ρ)
    (es : List (SEntry ι ρ)) : WState ι ρ :=
  es.foldl sheetInsert s

/-! Concrete inputs used by witnesses and counterexamples. -/

/-- A provider that reports `found = 0` with no cards on every page. -/
def c1ZeroProvider : Nat → Page Unit := fun _ => ⟨[], 0⟩

/-- A provider with a stable `found = 5`, serving the requested offset as its
single card. -/
def c1StableProvider : Nat → Page Nat := fun o => ⟨[o], 5⟩

/-- A provider whose first page reports `found = 6` and whose later pages
report `found = 2`: the total shrinks mid-pagination. -/
def c2Provider : Nat → Page Unit := fun o =>
  if o = 0 then ⟨[(), ()], 6⟩ else ⟨[(), ()], 2⟩

/-- Two providers agreeing on the first page's `found` but reporting wildly
different totals on later pages. -/
def c2ProviderA : Nat → Page Unit := fun _ => ⟨[], 5⟩

def c2ProviderB : Nat → Page Unit := fun o =>
  if o = 0 then ⟨[], 5⟩ else ⟨[], 1000⟩

/-- A location provider returning no match for any name. -/
def emptyLocProvider : String → List LocCard := fun _ => []

/-- A query with a house-type name outside the known category table. -/
def c4Params : QueryParams :=
  { locations := some ["Helsinki"], house_type := some ["linna"]
    room_count := Option.none, price_min := Option.none, price_max := Option.none
    size_min := Option.none, size_max := Option.none, limit := 50 }

/-- A location provider with one match for every name except `"b"`. -/
def c9Provider : String → List LocCard := fun s =>
  if s = "b" then [] else [⟨1234, 5⟩]

/-- The raw entry of the specification's concrete normalization scenario. -/
def entryC5 : Dict :=
  [("id", .num 42), ("description", .str "Nice\nflat"),
   ("buildingData", .obj [("year", .num 1990)]),
   ("coordinates", .obj [("longitude", .num 24.9), ("latitude", .num 60.2)]),
   ("published", .str "2021-05-01T10:00:00Z")]

/-- The `data` dict `_entry_builder` computes for `entryC5`, just before the
`HouseEntry(**data)` call. -/
def dataC5 : Dict :=
  [("id", .num 42), ("published", .dt ⟨2021, 5, 1, 10, 0, 0⟩),
   ("year", .num 1990), ("description", .str "Niceflat"),
   ("building_type", PyVal.none), ("room_configuration", PyVal.none),
   ("brand_name", PyVal.none), ("longitude", .num 24.9),
   ("latitude", .num 60.2), ("price_changed", PyVal.none)]

/-- A raw entry whose `buildingData` carries a sub-field (`zzz`) that is not a
canonical record attribute. -/
def entryC6 : Dict := [("buildingData", .obj [("zzz", .num 7)])]

/-- The `data` dict `_entry_builder` computes for `entryC6`: the unmatched
`zzz` sub-field survives the merge. -/
def dataC6 : Dict :=
  [("zzz", .num 7), ("description", .str ""), ("building_type", PyVal.none),
   ("room_configuration", PyVal.none), ("brand_name", PyVal.none),
   ("longitude", PyVal.none), ("latitude", PyVal.none),
   ("price_changed", PyVal.none), ("published", PyVal.none)]

/-- A top-level/building-data pair with an overlapping key (`id`) and a
non-attribute top-level key (`xxx`). -/
def entryM6 : Dict := [("id", .num 1), ("xxx", .num 2)]

def bdM6 : Dict := [("year", .num 3), ("id", .num 9)]

/-- The `data` dict `_entry_builder` computes for the empty raw entry. -/
def dataC8 : Dict :=
  [("description", .str ""), ("building_type", PyVal.none),
   ("room_configuration", PyVal.none), ("brand_name", PyVal.none),
   ("longitude", PyVal.none), ("latitude", PyVal.none),
   ("price_changed", PyVal.none), ("published", PyVal.none)]

/-- A wrapper state holding only a header row and an empty id set. -/
def c10State : WState Nat Nat := ⟨[0], ∅⟩

def c10Entry : SEntry Nat Nat := ⟨1, 10⟩

/-! Helper lemmas. -/

theorem strConcat_append (l1 l2 : List String) :
    strConcat (l1 ++ l2) = strConcat l1 ++ strConcat l2 := by
  induction l1 with
  | nil => simp [strConcat]
  | cons a t ih => simp [strConcat, ih, String.append_assoc]

theorem locationRun_fst (provider : String → List LocCard) (locs : List String) :
    (locationRun provider locs).1 = strConcat (locs.map (fun loc =>
      strConcat ((provider loc).map (fun c => card_info c loc ++ ",")))) := by
  induction locs with
  | nil => rfl
  | cons a t ih => simp [locationRun, strConcat, ih]

theorem expandList_err (ks : List String)
    (hbad : ∃ k, k ∈ ks ∧ houseTypeCodes k = Option.none) :
    ∃ e, expandList ks = .error (.keyError e) ∧ houseTypeCodes e = Option.none := by
  induction ks with
  | nil => simp at hbad
  | cons k rest ih =>
    cases hc : houseTypeCodes k with
    | none => exact ⟨k, by simp [expandList, hc], hc⟩
    | some cs =>
      obtain ⟨k0, hk0, hcode⟩ := hbad
      rcases List.mem_cons.mp hk0 with rfl | hmem
      · rw [hc] at hcode; cases hcode
      · obtain ⟨e, he, hce⟩ := ih ⟨k0, hmem, hcode⟩
        refine ⟨e, ?_, hce⟩
        simp [expandList, hc, he]

/-! Claim theorems. -/

/-- C3: for a query with no optional filter set, the spec claims the encoder
emits exactly the four fixed parameters; the code instead raises `TypeError`
while iterating the `None` house-type list (src/client.py:168), before any
parameter string exists and before any network call. This theorem evaluates
the embedded code at that failing input. -/
theorem c3_code_bug_eval (provider : String → List LocCard) :
    execute provider noFilterParams = (.error Err.typeError, ([] : List NetCall)) := rfl

/-- C4: a house-type list containing a name outside the closed category set
makes parameter encoding fail with the key-lookup error realizing the spec's
`InvalidFilter`, and the network-call log is empty: no location lookup and no
page fetch was issued. -/
theorem unknown_house_type_fails_before_network (provider : String → List LocCard)
    (p : QueryParams) (ks : List String) (hks : p.house_type = some ks)
    (hbad : ∃ k, k ∈ ks ∧ houseTypeCodes k = Option.none) :
    ∃ e, execute provider p = (.error (.keyError e), ([] : List NetCall))
      ∧ houseTypeCodes e = Option.none := by
  obtain ⟨e, he, hce⟩ := expandList_err ks hbad
  refine ⟨e, ?_, hce⟩
  simp [execute, params_builder, expandHouseTypes, hks, he]

theorem unknown_house_type_witness :
    ∃ e, execute emptyLocProvider c4Params = (.error (.keyError e), ([] : List NetCall))
      ∧ houseTypeCodes e = Option.none :=
  unknown_house_type_fails_before_network emptyLocProvider c4Params ["linna"] rfl
    ⟨"linna", by decide, by decide⟩

/-- C9: the location token accumulates, for each input name in input order,
one fragment per match the provider returned (no deduplication), and a name
with zero matches contributes nothing — the token is the same as if the name
were dropped from the input list. -/
theorem location_order_and_skip (provider : String → List LocCard)
    (pre post : List String) (name : String) (locs : List String)
    (h : provider name = []) :
    location provider (pre ++ name :: post) = location provider (pre ++ post)
  ∧ (locationRun provider locs).1 = strConcat (locs.map (fun loc =>
      strConcat ((provider loc).map (fun c => card_info c loc ++ ",")))) := by
  constructor
  · unfold location
    rw [locationRun_fst provider (pre ++ name :: post),
        locationRun_fst provider (pre ++ post)]
    simp [List.map_append, strConcat_append, strConcat, h]
  · exact locationRun_fst provider locs

theorem location_order_and_skip_witness :
    location c9Provider (["a"] ++ "b" :: ["c"]) = location c9Provider (["a"] ++ ["c"])
  ∧ (locationRun c9Provider ["a", "b"]).1 = strConcat (["a", "b"].map (fun loc =>
      strConcat ((c9Provider loc).map (fun c => card_info c loc ++ ",")))) :=
  location_order_and_skip c9Provider ["a"] ["c"] "b" ["a", "b"] rfl

theorem pyRangeAux_eq_range' (step : Nat) (hstep : 0 < step) :
    ∀ fuel start stop, stop - start ≤ fuel →
      pyRangeAux step fuel start stop
        = List.range' start ((stop - start + step - 1) / step) step := by
  intro fuel
  induction fuel with
  | zero =>
    intro start stop h
    have h0 : stop - start = 0 := by omega
    rw [h0]
    have h1 : (0 + step - 1) / step = 0 := Nat.div_eq_of_lt (by omega)
    rw [h1]
    rfl
  | succ n ih =>
    intro start stop h
    by_cases hlt : start < stop
    · have hrec := ih (start + step) stop (by omega)
      simp only [pyRangeAux, if_pos hlt, hrec]
      by_cases hds : step ≤ stop - start
      · have e1 : stop - (start + step) + step - 1
            = (stop - start - step) + step - 1 := by omega
        have e2 : stop - start + step - 1
            = ((stop - start - step) + step - 1) + step := by omega
        rw [e1, e2, Nat.add_div_right _ hstep]
        rfl
      · have e1 : stop - (start + step) + step - 1 = step - 1 := by omega
        have e2 : (step - 1) / step = 0 := Nat.div_eq_of_lt (by omega)
        have e3 : stop - start + step - 1 = (stop - start - 1) + step := by omega
        have e4 : (stop - start - 1) / step = 0 := Nat.div_eq_of_lt (by omega)
        rw [e1, e2, e3, Nat.add_div_right _ hstep, e4]
        rfl
    · simp only [pyRangeAux, if_neg hlt]
      have h0 : stop - start = 0 := by omega
      rw [h0]
      have h1 : (0 + step - 1) / step = 0 := Nat.div_eq_of_lt (by omega)
      rw [h1]
      rfl

theorem pyRange_eq_range' (start stop step : Nat) (h : 0 < step) :
    pyRange start stop step
      = List.range' start ((stop - start + step - 1) / step) step :=
  pyRangeAux_eq_range' step h (stop - start) start stop le_rfl

theorem queryRun_eq {α : Type} (provider : Nat → Page α) (limit : Nat) :
    queryRun provider limit
      = (0 :: (if (provider 0).found > limit then
          pyRange limit (provider 0).found limit else [])).map
            (fun i => (i, provider i)) := by
  unfold queryRun
  split <;> simp

theorem queryOffsets_eq {α : Type} (provider : Nat → Page α) (limit : Nat) :
    queryOffsets provider limit
      = 0 :: (if (provider 0).found > limit then
          pyRange limit (provider 0).found limit else []) := by
  unfold queryOffsets
  rw [queryRun_eq, List.map_map]
  have hid : (Prod.fst ∘ fun i : Nat => (i, provider i)) = id := rfl
  rw [hid, List.map_id]

/-- C1 (amended): under a stable `found = F` and page size `limit ≥ 1`, the
engine issues exactly `max 1 (ceil (F / limit))` page requests — `ceil`
whenever `F ≥ 1`, but still one request when `F = 0`, since the first page is
always fetched — at offsets `0, limit, 2·limit, …`; it yields exactly the
fetched pages' `cards`, page by page in provider order, so the total yielded
equals the sum of the pages' `cards` lengths. -/
theorem query_pagination_stable {α : Type} (provider : Nat → Page α)
    (limit F : Nat) (hL : 0 < limit) (hF : ∀ o, (provider o).found = F) :
    queryOffsets provider limit
      = List.range' 0 (max 1 ((F + limit - 1) / limit)) limit
  ∧ (queryRun provider limit).length = max 1 ((F + limit - 1) / limit)
  ∧ queryYield provider limit
      = (queryOffsets provider limit).flatMap (fun o => (provider o).cards)
  ∧ (queryYield provider limit).length
      = ((queryRun provider limit).map (fun e => e.2.cards.length)).sum := by
  have hoff : queryOffsets provider limit
      = List.range' 0 (max 1 ((F + limit - 1) / limit)) limit := by
    rw [queryOffsets_eq, hF 0]
    by_cases hgt : F > limit
    · rw [if_pos hgt, pyRange_eq_range' _ _ _ hL]
      have e1 : F - limit + limit - 1 = F - 1 := by omega
      have e2 : F + limit - 1 = (F - 1) + limit := by omega
      rw [e1, e2, Nat.add_div_right _ hL]
      rw [Nat.max_eq_right (Nat.le_add_left 1 ((F - 1) / limit))]
      have hr : List.range' 0 ((F - 1) / limit + 1) limit
          = 0 :: List.range' (0 + limit) ((F - 1) / limit) limit := rfl
      rw [hr, Nat.zero_add]
    · rw [if_neg hgt]
      have h2 : (F + limit - 1) / limit < 2 :=
        (Nat.div_lt_iff_lt_mul hL).mpr (by omega)
      rw [Nat.max_eq_left (by omega : (F + limit - 1) / limit ≤ 1)]
      rfl
  refine ⟨hoff, ?_, ?_, ?_⟩
  · have hlen : (queryRun provider limit).length
        = (queryOffsets provider limit).length := by
      unfold queryOffsets
      rw [List.length_map]
    rw [hlen, hoff, List.length_range']
  · unfold queryYield queryOffsets
    rw [queryRun_eq, List.flatMap_map, List.map_map]
    have hid : (Prod.fst ∘ fun i : Nat => (i, provider i)) = id := rfl
    rw [hid, List.map_id]
  · unfold queryYield
    rw [List.length_flatMap]
    rfl

theorem query_pagination_stable_witness :
    (queryOffsets c1StableProvider 2
      = List.range' 0 (max 1 ((5 + 2 - 1) / 2)) 2
  ∧ (queryRun c1StableProvider 2).length = max 1 ((5 + 2 - 1) / 2)
  ∧ queryYield c1StableProvider 2
      = (queryOffsets c1StableProvider 2).flatMap (fun o => (c1StableProvider o).cards)
  ∧ (queryYield c1StableProvider 2).length
      = ((queryRun c1StableProvider 2).map (fun e => e.2.cards.length)).sum) :=
  query_pagination_stable c1StableProvider 2 5 (by decide) (fun _ => rfl)

/-- C1 counterexample: with a stable `found = 0` (and page size 50) the
engine still issues its unconditional first page request, so the number of
page requests is 1, not `ceil (0 / 50) = 0` as the claim states. -/
theorem c1_counterexample :
    (queryRun c1ZeroProvider 50).length = 1
  ∧ ((0 + 50 - 1) / 50 : Nat) = 0
  ∧ (queryRun c1ZeroProvider 50).length ≠ (0 + 50 - 1) / 50 :=
  ⟨rfl, rfl, by decide⟩

/-- C2 (amended): the pagination is driven solely by the `found` value of the
first page, read once; later pages' `found` values are never consulted, so
any two providers agreeing on the first page's `found` are paged through the
same offsets. -/
theorem query_found_first_page_only {α β : Type} (p : Nat → Page α)
    (q : Nat → Page β) (limit : Nat) (h : (p 0).found = (q 0).found) :
    queryOffsets p limit = queryOffsets q limit := by
  rw [queryOffsets_eq, queryOffsets_eq, h]

theorem query_found_first_page_only_witness :
    queryOffsets c2ProviderA 2 = queryOffsets c2ProviderB 2 :=
  query_found_first_page_only c2ProviderA c2ProviderB 2 rfl

/-- C2 counterexample: with page size 2, a first page reporting `found = 6`
and the page at offset 2 reporting `found = 2`, the code still fetches offset
4 (offsets 0, 2, 4), whereas an engine re-reading `found` after each page, as
the claim describes (modelled by `reReadOffsets`), would stop after offset 2. -/
theorem c2_counterexample :
    queryOffsets c2Provider 2 = [0, 2, 4]
  ∧ (c2Provider 2).found = 2
  ∧ reReadOffsets c2Provider 2 10 0 = [0, 2]
  ∧ queryOffsets c2Provider 2 ≠ reReadOffsets c2Provider 2 10 0 :=
  ⟨rfl, rfl, rfl, by decide⟩

theorem dval_lt {c : Char} {k : Nat} (h : dval c = some k) : k < 10 := by
  unfold dval at h
  repeat' split at h
  all_goals (try cases h)
  all_goals (subst_vars; decide)

theorem digitChar_dval {c : Char} {k : Nat} (h : dval c = some k) :
    Nat.digitChar k = c := by
  unfold dval at h
  repeat' split at h
  all_goals (try cases h)
  all_goals (subst_vars; decide)

theorem dval_digitChar {k : Nat} (h : k < 10) :
    dval (Nat.digitChar k) = some k := by
  interval_cases k <;> decide

theorem parse2_digit {a b : Nat} (ha : a < 10) (hb : b < 10) :
    parse2 (Nat.digitChar a) (Nat.digitChar b) = some (a * 10 + b) := by
  unfold parse2
  rw [dval_digitChar ha, dval_digitChar hb]

theorem parse4_digit {a b c d : Nat} (ha : a < 10) (hb : b < 10)
    (hc : c < 10) (hd : d < 10) :
    parse4 (Nat.digitChar a) (Nat.digitChar b) (Nat.digitChar c) (Nat.digitChar d)
      = some (a * 1000 + b * 100 + c * 10 + d) := by
  unfold parse4
  rw [dval_digitChar ha, dval_digitChar hb, dval_digitChar hc, dval_digitChar hd]

theorem parse2_inv {c1 c2 : Char} {n : Nat} (h : parse2 c1 c2 = some n) :
    n ≤ 99 ∧ Nat.digitChar (n / 10) = c1 ∧ Nat.digitChar (n % 10) = c2 := by
  unfold parse2 at h
  cases h1 : dval c1 with
  | none => rw [h1] at h; cases h
  | some x =>
    cases h2 : dval c2 with
    | none => rw [h1, h2] at h; cases h
    | some y =>
      rw [h1, h2] at h
      injection h with h3
      have hx := dval_lt h1
      have hy := dval_lt h2
      subst h3
      refine ⟨by omega, ?_, ?_⟩
      · have e : (x * 10 + y) / 10 = x := by omega
        rw [e]; exact digitChar_dval h1
      · have e : (x * 10 + y) % 10 = y := by omega
        rw [e]; exact digitChar_dval h2

theorem parse4_inv {c1 c2 c3 c4 : Char} {n : Nat}
    (h : parse4 c1 c2 c3 c4 = some n) :
    n ≤ 9999 ∧ Nat.digitChar (n / 1000) = c1 ∧ Nat.digitChar (n / 100 % 10) = c2
      ∧ Nat.digitChar (n / 10 % 10) = c3 ∧ Nat.digitChar (n % 10) = c4 := by
  unfold parse4 at h
  cases h1 : dval c1 with
  | none => rw [h1] at h; cases h
  | some x =>
    cases h2 : dval c2 with
    | none => rw [h1, h2] at h; cases h
    | some y =>
      cases h3 : dval c3 with
      | none => rw [h1, h2, h3] at h; cases h
      | some z =>
        cases h4 : dval c4 with
        | none => rw [h1, h2, h3, h4] at h; cases h
        | some w =>
          rw [h1, h2, h3, h4] at h
          injection h with h5
          have hx := dval_lt h1
          have hy := dval_lt h2
          have hz := dval_lt h3
          have hw := dval_lt h4
          subst h5
          refine ⟨by omega, ?_, ?_, ?_, ?_⟩
          · have e : (x * 1000 + y * 100 + z * 10 + w) / 1000 = x := by omega
            rw [e]; exact digitChar_dval h1
          · have e : (x * 1000 + y * 100 + z * 10 + w) / 100 % 10 = y := by omega
            rw [e]; exact digitChar_dval h2
          · have e : (x * 1000 + y * 100 + z * 10 + w) / 10 % 10 = z := by omega
            rw [e]; exact digitChar_dval h3
          · have e : (x * 1000 + y * 100 + z * 10 + w) % 10 = w := by omega
            rw [e]; exact digitChar_dval h4

theorem parseFields_inv (l : List Char) (y mo d ho mi se : Nat)
    (h : parseFields l = some (y, mo, d, ho, mi, se)) :
    l = [Nat.digitChar (y / 1000), Nat.digitChar (y / 100 % 10),
         Nat.digitChar (y / 10 % 10), Nat.digitChar (y % 10), '-',
         Nat.digitChar (mo / 10), Nat.digitChar (mo % 10), '-',
         Nat.digitChar (d / 10), Nat.digitChar (d % 10), 'T',
         Nat.digitChar (ho / 10), Nat.digitChar (ho % 10), ':',
         Nat.digitChar (mi / 10), Nat.digitChar (mi % 10), ':',
         Nat.digitChar (se / 10), Nat.digitChar (se % 10), 'Z'] := by
  unfold parseFields at h
  split at h
  case h_2 => cases h
  case h_1 y1 y2 y3 y4 a1 a2 b1 b2 c1 c2 d1 d2 e1 e2 =>
    cases h1 : parse4 y1 y2 y3 y4 with
    | none => rw [h1] at h; cases h
    | some Y =>
      cases h2 : parse2 a1 a2 with
      | none => rw [h1, h2] at h; cases h
      | some MO =>
        cases h3 : parse2 b1 b2 with
        | none => rw [h1, h2, h3] at h; cases h
        | some DA =>
          cases h4 : parse2 c1 c2 with
          | none => rw [h1, h2, h3, h4] at h; cases h
          | some HO =>
            cases h5 : parse2 d1 d2 with
            | none => rw [h1, h2, h3, h4, h5] at h; cases h
            | some MI =>
              cases h6 : parse2 e1 e2 with
              | none => rw [h1, h2, h3, h4, h5, h6] at h; cases h
              | some SE =>
                rw [h1, h2, h3, h4, h5, h6] at h
                injection h with h7
                obtain ⟨hy, hmo, hd, hho, hmi, hse⟩ :
                    Y = y ∧ MO = mo ∧ DA = d ∧ HO = ho ∧ MI = mi ∧ SE = se := by
                  have := h7
                  simp only [Prod.mk.injEq] at this
                  exact ⟨this.1, this.2.1, this.2.2.1, this.2.2.2.1,
                         this.2.2.2.2.1, this.2.2.2.2.2⟩
                subst hy; subst hmo; subst hd; subst hho; subst hmi; subst hse
                obtain ⟨-, e1a, e1b, e1c, e1d⟩ := parse4_inv h1
                obtain ⟨-, e2a, e2b⟩ := parse2_inv h2
                obtain ⟨-, e3a, e3b⟩ := parse2_inv h3
                obtain ⟨-, e4a, e4b⟩ := parse2_inv h4
                obtain ⟨-, e5a, e5b⟩ := parse2_inv h5
                obtain ⟨-, e6a, e6b⟩ := parse2_inv h6
                rw [e1a, e1b, e1c, e1d, e2a, e2b, e3a, e3b, e4a, e4b,
                    e5a, e5b, e6a, e6b]

theorem daysInMonth_le (y m : Nat) : daysInMonth y m ≤ 31 := by
  unfold daysInMonth
  repeat' split
  all_goals omega

theorem format_parse (s : String) (t : DateTime) (h : parseTS s = .ok t) :
    formatTS t = s := by
  unfold parseTS at h
  cases hf : parseFields s.data with
  | none =>
    rw [hf] at h
    have h2 : (Except.error Err.valueError : Except Err DateTime) = Except.ok t := h
    cases h2
  | some tup =>
    obtain ⟨y, mo, d, ho, mi, se⟩ := tup
    rw [hf] at h
    have h2 : (if 1 ≤ y ∧ y ≤ 9999 ∧ 1 ≤ mo ∧ mo ≤ 12 ∧ 1 ≤ d
        ∧ d ≤ daysInMonth y mo ∧ ho ≤ 23 ∧ mi ≤ 59 ∧ se ≤ 59 then
        (Except.ok ⟨y, mo, d, ho, mi, se⟩ : Except Err DateTime)
      else Except.error Err.valueError) = Except.ok t := h
    split at h2
    · injection h2 with h3
      subst h3
      have hl := parseFields_inv s.data y mo d ho mi se hf
      obtain ⟨sd⟩ := s
      simp only [String.data] at hl
      exact congrArg String.mk hl.symm
    · cases h2

theorem parse_format (t : DateTime) (h : validDT t) : parseTS (formatTS t) = .ok t := by
  obtain ⟨h1, h2, h3, h4, h5, h6, h7, h8, h9⟩ := h
  have hfields : parseFields (formatTS t).data
      = some (t.year, t.month, t.day, t.hour, t.minute, t.second) := by
    have hd : (formatTS t).data
        = [Nat.digitChar (t.year / 1000), Nat.digitChar (t.year / 100 % 10),
           Nat.digitChar (t.year / 10 % 10), Nat.digitChar (t.year % 10), '-',
           Nat.digitChar (t.month / 10), Nat.digitChar (t.month % 10), '-',
           Nat.digitChar (t.day / 10), Nat.digitChar (t.day % 10), 'T',
           Nat.digitChar (t.hour / 10), Nat.digitChar (t.hour % 10), ':',
           Nat.digitChar (t.minute / 10), Nat.digitChar (t.minute % 10), ':',
           Nat.digitChar (t.second / 10), Nat.digitChar (t.second % 10), 'Z'] := rfl
    rw [hd]
    simp only [parseFields]
    have hday : t.day ≤ 31 := le_trans h6 (daysInMonth_le t.year t.month)
    rw [parse4_digit (by omega) (by omega) (by omega) (by omega),
        parse2_digit (by omega) (by omega), parse2_digit (by omega) (by omega),
        parse2_digit (by omega) (by omega), parse2_digit (by omega) (by omega),
        parse2_digit (by omega) (by omega)]
    have ey : t.year / 1000 * 1000 + t.year / 100 % 10 * 100
        + t.year / 10 % 10 * 10 + t.year % 10 = t.year := by omega
    have emo : t.month / 10 * 10 + t.month % 10 = t.month := by omega
    have eda : t.day / 10 * 10 + t.day % 10 = t.day := by omega
    have eho : t.hour / 10 * 10 + t.hour % 10 = t.hour := by omega
    have emi : t.minute / 10 * 10 + t.minute % 10 = t.minute := by omega
    have ese : t.second / 10 * 10 + t.second % 10 = t.second := by omega
    rw [ey, emo, eda, eho, emi, ese]
  unfold parseTS
  rw [hfields]
  show (if 1 ≤ t.year ∧ t.year ≤ 9999 ∧ 1 ≤ t.month ∧ t.month ≤ 12 ∧ 1 ≤ t.day
      ∧ t.day ≤ daysInMonth t.year t.month ∧ t.hour ≤ 23 ∧ t.minute ≤ 59
      ∧ t.second ≤ 59 then
      (Except.ok ⟨t.year, t.month, t.day, t.hour, t.minute, t.second⟩
        : Except Err DateTime)
    else Except.error Err.valueError) = Except.ok t
  rw [if_pos ⟨h1, h2, h3, h4, h5, h6, h7, h8, h9⟩]

theorem formatTS_ne_empty (t : DateTime) : formatTS t ≠ "" := by
  intro hcon
  have h2 : (formatTS t).data = "".data := congrArg String.data hcon
  simp [formatTS, pad4] at h2

/-- C7: on the fixed provider format, `_convert_ts`'s parse and `asdict`'s
serialization are mutually inverse: a string parsed to an instant is
recovered exactly by serializing that instant, and a valid instant is
recovered exactly by parsing its serialization. -/
theorem convert_ts_roundtrip (s : String) (t u : DateTime)
    (hparse : convert_ts (.str s) = .ok (.dt t)) (hu : validDT u) :
    pyValSerialize (.dt t) = .str s
  ∧ convert_ts (pyValSerialize (.dt u)) = .ok (.dt u) := by
  constructor
  · unfold convert_ts at hparse
    split at hparse
    · simp at hparse
    · have hparse2 : (match parseTS s with
          | Except.ok t2 => (Except.ok (PyVal.dt t2) : Except Err PyVal)
          | Except.error e => Except.error e) = Except.ok (PyVal.dt t) := hparse
      cases hp : parseTS s with
      | error e => rw [hp] at hparse2; cases hparse2
      | ok t2 =>
        rw [hp] at hparse2
        have ht : t2 = t := by
          injection hparse2 with h2
          injection h2
        subst ht
        show PyVal.str (formatTS t2) = PyVal.str s
        rw [format_parse s t2 hp]
  · unfold pyValSerialize convert_ts
    have hfal : pyFalsy (.str (formatTS u)) = false := by
      unfold pyFalsy
      exact beq_eq_false_iff_ne.mpr (formatTS_ne_empty u)
    rw [hfal]
    simp only [Bool.false_eq_true, if_false]
    rw [parse_format u hu]

theorem convert_ts_roundtrip_witness :
    pyValSerialize (.dt ⟨2021, 5, 1, 10, 0, 0⟩) = .str "2021-05-01T10:00:00Z"
  ∧ convert_ts (pyValSerialize (.dt ⟨2021, 5, 1, 10, 0, 0⟩))
      = .ok (.dt ⟨2021, 5, 1, 10, 0, 0⟩) :=
  convert_ts_roundtrip "2021-05-01T10:00:00Z" ⟨2021, 5, 1, 10, 0, 0⟩
    ⟨2021, 5, 1, 10, 0, 0⟩ rfl (by unfold validDT; decide)

theorem dget_dset_self (d : Dict) (k : String) (v : PyVal) :
    dget (dset d k v) k = some v := by
  induction d with
  | nil => simp [dset, dget]
  | cons a t ih =>
    by_cases h : a.1 = k
    · simp [dset, dget, beq_iff_eq, h]
    · simp [dset, dget, beq_iff_eq, h, ih]

theorem dget_dset_ne (d : Dict) (k k2 : String) (v : PyVal) (h : k2 ≠ k) :
    dget (dset d k v) k2 = dget d k2 := by
  induction d with
  | nil => simp [dset, dget, beq_iff_eq, Ne.symm h]
  | cons a t ih =>
    by_cases ha : a.1 = k
    · simp [dset, dget, beq_iff_eq, ha, Ne.symm h]
    · simp [dset, dget, beq_iff_eq, ha, ih]

theorem dget_dupdate_not_mem :
    ∀ (bd d : Dict) (k : String), ¬ k ∈ dkeys bd →
      dget (dupdate d bd) k = dget d k := by
  intro bd
  induction bd with
  | nil => intro d k _; rfl
  | cons a t ih =>
    intro d k h
    simp only [dkeys, List.map_cons, List.mem_cons, not_or] at h
    have hstep : dupdate d (a :: t) = dupdate (dset d a.1 a.2) t := rfl
    rw [hstep, ih _ k (by simpa [dkeys] using h.2), dget_dset_ne _ _ _ _ h.1]

theorem dget_dupdate_mem :
    ∀ (bd d : Dict) (k : String) (v : PyVal), (dkeys bd).Nodup → (k, v) ∈ bd →
      dget (dupdate d bd) k = some v := by
  intro bd
  induction bd with
  | nil => intro d k v _ hmem; cases hmem
  | cons a t ih =>
    intro d k v hnd hmem
    have hstep : dupdate d (a :: t) = dupdate (dset d a.1 a.2) t := rfl
    rw [hstep]
    simp only [dkeys, List.map_cons, List.nodup_cons] at hnd
    rcases List.mem_cons.mp hmem with heq | hmem2
    · subst heq
      rw [dget_dupdate_not_mem t _ k (by simpa [dkeys] using hnd.1)]
      exact dget_dset_self d k v
    · exact ih (dset d a.1 a.2) k v (by simpa [dkeys] using hnd.2) hmem2

theorem dget_dictFilter (entry : Dict) (k : String) :
    dget (dictFilter entry) k
      = if houseEntryFields.contains k then dget entry k else Option.none := by
  induction entry with
  | nil => simp [dictFilter, dget]
  | cons a t ih =>
    by_cases hmem : a.1 ∈ houseEntryFields
    · have hc : houseEntryFields.contains a.1 = true := by simpa using hmem
      rw [show dictFilter (a :: t) = a :: dictFilter t from by
        simp [dictFilter, List.filter_cons, hc, hmem]]
      by_cases hk : a.1 = k
      · subst hk
        simp [dget, hc, hmem]
      · simp [dget, beq_iff_eq, hk, ih]
    · have hc : houseEntryFields.contains a.1 = false := by simpa using hmem
      rw [show dictFilter (a :: t) = dictFilter t from by
        simp [dictFilter, List.filter_cons, hc, hmem]]
      by_cases hk : a.1 = k
      · subst hk
        simp [dget, hc, hmem, ih]
      · simp [dget, beq_iff_eq, hk, ih]

theorem mkHouseEntry_fields (d : Dict) (r : HouseEntry)
    (h : mkHouseEntry d = .ok r) :
    r.brand_name = dgetD d "brand_name" PyVal.none
  ∧ r.longitude = dgetD d "longitude" PyVal.none
  ∧ r.latitude = dgetD d "latitude" PyVal.none
  ∧ r.price_changed = dgetD d "price_changed" PyVal.none
  ∧ r.published = dgetD d "published" PyVal.none := by
  unfold mkHouseEntry at h
  split at h
  · injection h with h2
    subst h2
    exact ⟨rfl, rfl, rfl, rfl, rfl⟩
  · cases h

/-- C5 counterexample: on the specification's concrete raw entry, record
construction fails — `HouseEntry` declares no attribute defaults, so the ten
absent required attributes make `HouseEntry(**data)` raise `TypeError` — so
normalization does not produce the claimed record. -/
theorem c5_counterexample : entry_builder entryC5 = .error .typeError := rfl

/-- C5 (amended): on the concrete raw entry the normalizer computes the
claimed values into its `data` dict — id 42, description with the newline
stripped, year 1990, the coordinates, the parsed `published` instant, and
null for the remaining derived fields — but `HouseEntry(**data)` then fails
with a `TypeError` because the unspecified required attributes (url, rooms,
price, size, address, district, city, country, visits, visits_weekly) are
missing and the dataclass has no defaults, rather than defaulting them. -/
theorem c5_amended_eval :
    entry_data entryC5 = .ok dataC5
  ∧ dget dataC5 "id" = some (.num 42)
  ∧ dget dataC5 "description" = some (.str "Niceflat")
  ∧ dget dataC5 "year" = some (.num 1990)
  ∧ dget dataC5 "longitude" = some (.num 24.9)
  ∧ dget dataC5 "latitude" = some (.num 60.2)
  ∧ dget dataC5 "published" = some (.dt ⟨2021, 5, 1, 10, 0, 0⟩)
  ∧ dget dataC5 "building_type" = some PyVal.none
  ∧ dget dataC5 "room_configuration" = some PyVal.none
  ∧ dget dataC5 "brand_name" = some PyVal.none
  ∧ dget dataC5 "price_changed" = some PyVal.none
  ∧ dget dataC5 "url" = Option.none
  ∧ mkHouseEntry dataC5 = .error .typeError :=
  ⟨rfl, rfl, rfl, rfl, rfl, rfl, rfl, rfl, rfl, rfl, rfl, rfl, rfl⟩

/-- C6 counterexample: a `buildingData` sub-field named `zzz`, which matches
no canonical attribute, is not filtered out: it survives into the `data` dict
(and then makes record construction fail as an unexpected keyword), whereas
the claim says sub-fields are filtered by the attribute-name rule before the
merge. -/
theorem c6_counterexample :
    entry_data entryC6 = .ok dataC6
  ∧ dget dataC6 "zzz" = some (.num 7)
  ∧ houseEntryFields.contains "zzz" = false
  ∧ entry_builder entryC6 = .error .typeError :=
  ⟨rfl, rfl, rfl, rfl⟩

/-- C6 (amended): the normalizer copies a top-level field only if its name
matches a canonical attribute, but merges every `buildingData` sub-field
unfiltered; for an overlapping name the `buildingData` value takes precedence
since it is assigned last, and a name absent from `buildingData` falls back
to the filtered top-level copy. -/
theorem c6_amended_merge (entry bd : Dict) (k : String) (v : PyVal)
    (hnd : (dkeys bd).Nodup) :
    (houseEntryFields.contains k = false → ¬ k ∈ dkeys bd →
        dget (merged_data entry bd) k = Option.none)
  ∧ ((k, v) ∈ bd → dget (merged_data entry bd) k = some v)
  ∧ (¬ k ∈ dkeys bd →
        dget (merged_data entry bd) k
          = if houseEntryFields.contains k then dget entry k else Option.none) := by
  refine ⟨?_, ?_, ?_⟩
  · intro hnc hnb
    unfold merged_data
    rw [dget_dupdate_not_mem bd _ k hnb, dget_dictFilter, hnc]
    simp
  · intro hmem
    exact dget_dupdate_mem bd _ k v hnd hmem
  · intro hnb
    unfold merged_data
    rw [dget_dupdate_not_mem bd _ k hnb, dget_dictFilter]

theorem c6_amended_merge_witness :
    dget (merged_data entryM6 bdM6) "xxx" = Option.none
  ∧ dget (merged_data entryM6 bdM6) "id" = some (.num 9)
  ∧ dget (merged_data entryM6 bdM6) "url"
      = (if houseEntryFields.contains "url" then dget entryM6 "url"
         else Option.none) := by
  have hnd : (dkeys bdM6).Nodup := by decide
  refine ⟨(c6_amended_merge entryM6 bdM6 "xxx" PyVal.none hnd).1 (by decide) (by decide),
          (c6_amended_merge entryM6 bdM6 "id" (.num 9) hnd).2.1 ?_,
          (c6_amended_merge entryM6 bdM6 "url" PyVal.none hnd).2.2 (by decide)⟩
  exact List.mem_cons_of_mem _ (List.mem_cons_self _ _)

theorem entry_data_inv (entry d : Dict) (h : entry_data entry = .ok d) :
    ∃ bd, dgetD entry "buildingData" (.obj []) = .obj bd
      ∧ entry_data2 entry (merged_data entry bd) = .ok d := by
  unfold entry_data at h
  cases hv : dgetD entry "buildingData" (PyVal.obj []) with
  | obj bd =>
    rw [hv] at h
    exact ⟨bd, rfl, h⟩
  | none =>
    rw [hv] at h
    have h2 : (Except.error Err.typeError : Except Err Dict) = .ok d := h
    cases h2
  | str s =>
    rw [hv] at h
    have h2 : (Except.error Err.typeError : Except Err Dict) = .ok d := h
    cases h2
  | num q =>
    rw [hv] at h
    have h2 : (Except.error Err.typeError : Except Err Dict) = .ok d := h
    cases h2
  | dt t =>
    rw [hv] at h
    have h2 : (Except.error Err.typeError : Except Err Dict) = .ok d := h
    cases h2

theorem entry_data2_inv (entry data d : Dict) (h : entry_data2 entry data = .ok d) :
    ∃ s, (dget data "description").getD (.str "") = .str s
      ∧ entry_data3 entry (dset (dpopRest data "description") "description"
          (.str (replaceChar s '\n' ""))) = .ok d := by
  unfold entry_data2 at h
  cases hv : (dget data "description").getD (PyVal.str "") with
  | str s =>
    rw [hv] at h
    exact ⟨s, rfl, h⟩
  | none =>
    rw [hv] at h
    have h2 : (Except.error Err.typeError : Except Err Dict) = .ok d := h
    cases h2
  | obj l =>
    rw [hv] at h
    have h2 : (Except.error Err.typeError : Except Err Dict) = .ok d := h
    cases h2
  | num q =>
    rw [hv] at h
    have h2 : (Except.error Err.typeError : Except Err Dict) = .ok d := h
    cases h2
  | dt t =>
    rw [hv] at h
    have h2 : (Except.error Err.typeError : Except Err Dict) = .ok d := h
    cases h2

theorem entry_data3_inv (entry data1 d : Dict) (h : entry_data3 entry data1 = .ok d) :
    ∃ bobj bn, dgetD entry "brand" (.obj [("name", PyVal.none)]) = .obj bobj
      ∧ dget bobj "name" = some bn
      ∧ entry_data4 entry (dset (deriveData3 entry data1) "brand_name" bn) = .ok d := by
  unfold entry_data3 at h
  cases hv : dgetD entry "brand" (PyVal.obj [("name", PyVal.none)]) with
  | obj bobj =>
    rw [hv] at h
    have h2 : (match dget bobj "name" with
        | some bn => entry_data4 entry (dset (deriveData3 entry data1) "brand_name" bn)
        | Option.none => (Except.error (Err.keyError "name") : Except Err Dict))
        = Except.ok d := h
    cases hn : dget bobj "name" with
    | some bn =>
      rw [hn] at h2
      have h3 : entry_data4 entry (dset (deriveData3 entry data1) "brand_name" bn)
          = Except.ok d := h2
      exact ⟨bobj, bn, rfl, hn, h3⟩
    | none =>
      rw [hn] at h2
      have h3 : (Except.error (Err.keyError "name") : Except Err Dict) = .ok d := h2
      cases h3
  | none =>
    rw [hv] at h
    have h2 : (Except.error Err.typeError : Except Err Dict) = .ok d := h
    cases h2
  | str s =>
    rw [hv] at h
    have h2 : (Except.error Err.typeError : Except Err Dict) = .ok d := h
    cases h2
  | num q =>
    rw [hv] at h
    have h2 : (Except.error Err.typeError : Except Err Dict) = .ok d := h
    cases h2
  | dt t =>
    rw [hv] at h
    have h2 : (Except.error Err.typeError : Except Err Dict) = .ok d := h
    cases h2

theorem entry_data4_inv (entry data4 d : Dict) (h : entry_data4 entry data4 = .ok d) :
    ∃ cobj, dgetD entry "coordinates" (.obj []) = .obj cobj
      ∧ entry_data5 entry (dset (dset data4 "longitude"
          (dgetD cobj "longitude" PyVal.none)) "latitude"
          (dgetD cobj "latitude" PyVal.none)) = .ok d := by
  unfold entry_data4 at h
  cases hv : dgetD entry "coordinates" (PyVal.obj []) with
  | obj cobj =>
    rw [hv] at h
    exact ⟨cobj, rfl, h⟩
  | none =>
    rw [hv] at h
    have h2 : (Except.error Err.typeError : Except Err Dict) = .ok d := h
    cases h2
  | str s =>
    rw [hv] at h
    have h2 : (Except.error Err.typeError : Except Err Dict) = .ok d := h
    cases h2
  | num q =>
    rw [hv] at h
    have h2 : (Except.error Err.typeError : Except Err Dict) = .ok d := h
    cases h2
  | dt t =>
    rw [hv] at h
    have h2 : (Except.error Err.typeError : Except Err Dict) = .ok d := h
    cases h2

theorem entry_data5_inv (entry data5 d : Dict) (h : entry_data5 entry data5 = .ok d) :
    ∃ pc pub, convert_ts (dgetD entry "priceChanged" PyVal.none) = .ok pc
      ∧ convert_ts (dgetD entry "published" PyVal.none) = .ok pub
      ∧ d = dset (dset data5 "price_changed" pc) "published" pub := by
  unfold entry_data5 at h
  cases h1 : convert_ts (dgetD entry "priceChanged" PyVal.none) with
  | error e =>
    rw [h1] at h
    have h2 : (Except.error e : Except Err Dict) = .ok d := h
    cases h2
  | ok pc =>
    rw [h1] at h
    cases h2 : convert_ts (dgetD entry "published" PyVal.none) with
    | error e =>
      rw [h2] at h
      have h3 : (Except.error e : Except Err Dict) = .ok d := h
      cases h3
    | ok pub =>
      rw [h2] at h
      have h3 : Except.ok (dset (dset data5 "price_changed" pc) "published" pub)
          = Except.ok d := h
      injection h3 with h4
      exact ⟨pc, pub, rfl, rfl, h4.symm⟩

/-- C8: for any raw entry the normalizer accepts, an absent `brand` object
yields a null `brand_name`, an absent `coordinates` object yields null
longitude and latitude, and an absent or empty `priceChanged`/`published`
value yields a null timestamp field (never an empty string) — both in the
built `data` dict and in the record when construction succeeds. -/
theorem normalize_absent_defaults (entry d : Dict) (h : entry_data entry = .ok d) :
    (dget entry "brand" = Option.none → dget d "brand_name" = some PyVal.none)
  ∧ (dget entry "coordinates" = Option.none →
      dget d "longitude" = some PyVal.none ∧ dget d "latitude" = some PyVal.none)
  ∧ ((dget entry "priceChanged" = Option.none
      ∨ dget entry "priceChanged" = some (PyVal.str "")) →
      dget d "price_changed" = some PyVal.none)
  ∧ ((dget entry "published" = Option.none
      ∨ dget entry "published" = some (PyVal.str "")) →
      dget d "published" = some PyVal.none)
  ∧ (∀ r, mkHouseEntry d = .ok r →
      (dget entry "brand" = Option.none → r.brand_name = PyVal.none)
    ∧ (dget entry "coordinates" = Option.none →
        r.longitude = PyVal.none ∧ r.latitude = PyVal.none)) := by
  obtain ⟨bd, hbd, h2⟩ := entry_data_inv entry d h
  obtain ⟨s2, hdesc, h3⟩ := entry_data2_inv entry _ d h2
  obtain ⟨bobj, bn, hbrand, hname, h4⟩ := entry_data3_inv entry _ d h3
  obtain ⟨cobj, hcoords, h5⟩ := entry_data4_inv entry _ d h4
  obtain ⟨pc, pub, hpc, hpub, hd⟩ := entry_data5_inv entry _ d h5
  have fact1 : dget entry "brand" = Option.none → dget d "brand_name" = some PyVal.none := by
    intro hb
    have hb2 : dgetD entry "brand" (.obj [("name", PyVal.none)])
        = .obj [("name", PyVal.none)] := by simp [dgetD, hb]
    have hb3 : PyVal.obj bobj = PyVal.obj [("name", PyVal.none)] :=
      hbrand.symm.trans hb2
    injection hb3 with hb4
    subst hb4
    have hb5 : some (PyVal.none) = some bn := by
      rw [← hname]; rfl
    injection hb5 with hb6
    rw [hd, dget_dset_ne _ _ _ _ (by decide : ("brand_name" : String) ≠ "published"),
        dget_dset_ne _ _ _ _ (by decide : ("brand_name" : String) ≠ "price_changed"),
        dget_dset_ne _ _ _ _ (by decide : ("brand_name" : String) ≠ "latitude"),
        dget_dset_ne _ _ _ _ (by decide : ("brand_name" : String) ≠ "longitude"),
        dget_dset_self, ← hb6]
  have fact2 : dget entry "coordinates" = Option.none →
      dget d "longitude" = some PyVal.none ∧ dget d "latitude" = some PyVal.none := by
    intro hc
    have hc2 : dgetD entry "coordinates" (.obj []) = .obj [] := by simp [dgetD, hc]
    have hc3 : PyVal.obj cobj = PyVal.obj [] := hcoords.symm.trans hc2
    injection hc3 with hc4
    subst hc4
    constructor
    · rw [hd, dget_dset_ne _ _ _ _ (by decide : ("longitude" : String) ≠ "published"),
          dget_dset_ne _ _ _ _ (by decide : ("longitude" : String) ≠ "price_changed"),
          dget_dset_ne _ _ _ _ (by decide : ("longitude" : String) ≠ "latitude"),
          dget_dset_self]
      rfl
    · rw [hd, dget_dset_ne _ _ _ _ (by decide : ("latitude" : String) ≠ "published"),
          dget_dset_ne _ _ _ _ (by decide : ("latitude" : String) ≠ "price_changed"),
          dget_dset_self]
      rfl
  have fact3 : (dget entry "priceChanged" = Option.none
      ∨ dget entry "priceChanged" = some (PyVal.str "")) →
      dget d "price_changed" = some PyVal.none := by
    intro hp
    have hcv : convert_ts (dgetD entry "priceChanged" PyVal.none) = .ok PyVal.none := by
      rcases hp with hp | hp
      · rw [show dgetD entry "priceChanged" PyVal.none = PyVal.none from by
          simp [dgetD, hp]]
        rfl
      · rw [show dgetD entry "priceChanged" PyVal.none = PyVal.str "" from by
          simp [dgetD, hp]]
        simp [convert_ts, pyFalsy]
    have hpc2 : (Except.ok pc : Except Err PyVal) = Except.ok PyVal.none :=
      hpc.symm.trans hcv
    injection hpc2 with hpc3
    rw [hd, dget_dset_ne _ _ _ _ (by decide : ("price_changed" : String) ≠ "published"),
        dget_dset_self, hpc3]
  have fact4 : (dget entry "published" = Option.none
      ∨ dget entry "published" = some (PyVal.str "")) →
      dget d "published" = some PyVal.none := by
    intro hp
    have hcv : convert_ts (dgetD entry "published" PyVal.none) = .ok PyVal.none := by
      rcases hp with hp | hp
      · rw [show dgetD entry "published" PyVal.none = PyVal.none from by
          simp [dgetD, hp]]
        rfl
      · rw [show dgetD entry "published" PyVal.none = PyVal.str "" from by
          simp [dgetD, hp]]
        simp [convert_ts, pyFalsy]
    have hpub2 : (Except.ok pub : Except Err PyVal) = Except.ok PyVal.none :=
      hpub.symm.trans hcv
    injection hpub2 with hpub3
    rw [hd, dget_dset_self, hpub3]
  refine ⟨fact1, fact2, fact3, fact4, ?_⟩
  intro r hr
  obtain ⟨hbn, hlo, hla, _, _⟩ := mkHouseEntry_fields d r hr
  constructor
  · intro hb
    rw [hbn]
    simp [dgetD, fact1 hb]
  · intro hc
    constructor
    · rw [hlo]
      simp [dgetD, (fact2 hc).1]
    · rw [hla]
      simp [dgetD, (fact2 hc).2]

theorem normalize_absent_defaults_witness :
    dget dataC8 "brand_name" = some PyVal.none
  ∧ (dget dataC8 "longitude" = some PyVal.none ∧ dget dataC8 "latitude" = some PyVal.none)
  ∧ dget dataC8 "price_changed" = some PyVal.none
  ∧ dget dataC8 "published" = some PyVal.none := by
  have H := normalize_absent_defaults [] dataC8 rfl
  exact ⟨H.1 rfl, H.2.1 rfl, H.2.2.1 (Or.inl rfl), H.2.2.2.1 (Or.inl rfl)⟩

theorem runInserts_invariant {ι ρ : Type} [DecidableEq ι] :
    ∀ (es : List (SEntry ι ρ)) (s : WState ι ρ),
      s.rows.length = s.ids.card + 1 →
      (runInserts s es).rows.length = (runInserts s es).ids.card + 1
    ∧ (runInserts s es).ids = s.ids ∪ (es.map (fun x => x.id)).toFinset := by
  intro es
  induction es with
  | nil => intro s h; exact ⟨h, by simp [runInserts]⟩
  | cons e t ih =>
    intro s h
    have hstep : runInserts s (e :: t) = runInserts (sheetInsert s e) t := rfl
    have hinv2 : (sheetInsert s e).rows.length = (sheetInsert s e).ids.card + 1 := by
      unfold sheetInsert
      split
      · exact h
      · next hne =>
        show (s.rows.insertIdx (s.ids.card + 1) e.row).length
          = (insert e.id s.ids).card + 1
        rw [List.length_insertIdx _ _ (le_of_eq h.symm),
            Finset.card_insert_of_not_mem hne, h]
    have hids : (sheetInsert s e).ids = insert e.id s.ids := by
      unfold sheetInsert
      split
      · next hmem => simp [Finset.insert_eq_self.mpr hmem]
      · rfl
    obtain ⟨ha, hb⟩ := ih (sheetInsert s e) hinv2
    rw [hstep]
    refine ⟨ha, ?_⟩
    rw [hb, hids]
    ext x
    simp only [Finset.mem_union, Finset.mem_insert, List.map_cons,
      List.toFinset_cons, List.mem_toFinset, List.mem_map]
    tauto

/-- C10 (amended): a duplicate-id `insert` leaves the wrapper unchanged; a
fresh-id `insert` adds the id and places the row at 1-based sheet index
`|ids| + 2`, which is the end of the sheet exactly when the wrapper satisfies
the invariant `rows = header + one row per known id` — established at
construction when the loaded records carry distinct ids (or the sheet is
empty), and preserved by every insert. After any sequence of inserts the id
set is the starting ids united with the inserted entries' ids, and the
row-count invariant shows no id's row is ever added twice. -/
theorem sheet_insert_invariant {ι ρ : Type} [DecidableEq ι] (s : WState ι ρ)
    (e : SEntry ι ρ) (es : List (SEntry ι ρ)) (recId : ρ → ι) (header : ρ)
    (sheet : List ρ) (hinv : s.rows.length = s.ids.card + 1) :
    (e.id ∈ s.ids → sheetInsert s e = s)
  ∧ (e.id ∉ s.ids → sheetInsert s e
      = ⟨s.rows ++ [e.row], insert e.id s.ids⟩)
  ∧ (runInserts s es).rows.length = (runInserts s es).ids.card + 1
  ∧ (runInserts s es).ids = s.ids ∪ (es.map (fun x => x.id)).toFinset
  ∧ ((sheet = [] ∨ sheet.drop 1 ≠ []) → ((sheet.drop 1).map recId).Nodup →
      (constructW recId header sheet).rows.length
        = (constructW recId header sheet).ids.card + 1) := by
  obtain ⟨hrun1, hrun2⟩ := runInserts_invariant es s hinv
  refine ⟨?_, ?_, hrun1, hrun2, ?_⟩
  · intro h
    simp [sheetInsert, h]
  · intro h
    unfold sheetInsert
    rw [if_neg h]
    have h2 : s.ids.card + 1 = s.rows.length := hinv.symm
    rw [h2, List.insertIdx_length_self]
  · intro hsh hnd
    unfold constructW
    rcases hsh with rfl | hne
    · simp
    · rw [if_neg (by simpa using hne)]
      show sheet.length = ((sheet.drop 1).map recId).toFinset.card + 1
      rw [List.toFinset_card_of_nodup hnd, List.length_map]
      have hnn : sheet ≠ [] := by
        intro hcon
        subst hcon
        simp at hne
      have hlen : 1 ≤ sheet.length := List.length_pos.mpr hnn
      rw [List.length_drop]
      omega

theorem sheet_insert_invariant_witness :
    (c10Entry.id ∈ c10State.ids → sheetInsert c10State c10Entry = c10State)
  ∧ (c10Entry.id ∉ c10State.ids → sheetInsert c10State c10Entry
      = ⟨c10State.rows ++ [c10Entry.row], insert c10Entry.id c10State.ids⟩)
  ∧ (runInserts c10State [c10Entry]).rows.length
      = (runInserts c10State [c10Entry]).ids.card + 1
  ∧ (runInserts c10State [c10Entry]).ids
      = c10State.ids ∪ ([c10Entry].map (fun x => x.id)).toFinset
  ∧ ((([] : List Nat) = [] ∨ ([] : List Nat).drop 1 ≠ []) →
      ((([] : List Nat).drop 1).map (fun r => r)).Nodup →
      (constructW (fun r => r) (0 : Nat) []).rows.length
        = (constructW (fun r => r) (0 : Nat) []).ids.card + 1) :=
  sheet_insert_invariant c10State c10Entry [c10Entry] (fun r => r) 0 []
    (by decide)

/-- C10 counterexample: when the loaded sheet carries two records with the
same id, `len(self.ids)` undercounts the rows, so inserting a fresh id places
the row at index `|ids| + 2` — the middle of the sheet — not appended at the
end as the claim states. -/
theorem c10_counterexample :
    (5 : Nat) ∉ (constructW (fun r => r) 0 [0, 1, 1] : WState Nat Nat).ids
  ∧ (sheetInsert (constructW (fun r => r) 0 [0, 1, 1]) ⟨5, 99⟩).rows
      = [0, 1, 99, 1]
  ∧ (constructW (fun r => r) 0 [0, 1, 1] : WState Nat Nat).rows ++ [99]
      = [0, 1, 1, 99]
  ∧ ([0, 1, 99, 1] : List Nat) ≠ [0, 1, 1, 99] :=
  ⟨by decide, rfl, rfl, by decide⟩
